import Mathlib

/-!
Shallow embedding of the income-tracker payment pipeline
(`src/income_tracker`): provider classification, amount/name extraction,
deduplication and the polling orchestrator, together with proofs of the
spec's testable properties.

Modelling conventions:
* Python strings are Lean `String`s; `str.lower()` is `strLower`
  (ASCII lowering, which is what the inputs here contain); the substring
  test `a in b` is `containsL a.data b.data`.
* `decimal.Decimal` amounts are `ℚ` (exact rationals); the inputs that
  reach the parser consist of digits and at most one dot, on which domain
  `parseDecimal` agrees with Python's `Decimal` constructor.
* `datetime` values are represented by the strings the code compares and
  stores: `record.date` is the `%Y-%m-%d` day string and `processed_at`
  the `%Y-%m-%d %H:%M:%S` stamp; `parse_email_date`'s fallback to
  `datetime.now()` is modelled by an explicit `nowDay` argument.
* I/O nondeterminism (IMAP results, fetch failures, unexpected
  per-message exceptions, storage write failures) is injected through
  explicit outcome parameters, one per interaction, as the code observes
  them.
-/

set_option autoImplicit false

namespace IncomeTracker

/-- `a == b` on characters by code point, as Python compares them. -/
def charEq (a b : Char) : Bool := a = b

/-- Does `l` start with `needle`? (Helper for the Python substring test.) -/
def startsWithL : List Char → List Char → Bool
  | [], _ => true
  | _ :: _, [] => false
  | a :: as, b :: bs => charEq a b && startsWithL as bs

/-- Python's `needle in hay` substring test on strings. -/
def containsL (needle : List Char) : List Char → Bool
  | [] => startsWithL needle []
  | c :: cs => startsWithL needle (c :: cs) || containsL needle cs

/-- Python `str.lower()` (the strings involved are ASCII). -/
def strLower (s : String) : String := ⟨s.data.map Char.toLower⟩

/-- Python `str.strip()`: drop whitespace from both ends. -/
def pyStrip (s : String) : String :=
  ⟨((s.data.dropWhile Char.isWhitespace).reverse.dropWhile Char.isWhitespace).reverse⟩

/-- models/payment.py: `PaymentSource` enum. -/
inductive PaymentSource
  | zelle
  | venmo
  | cashapp
  | paypal
deriving DecidableEq, Repr

/-- `PaymentSource.value`. -/
def PaymentSource.value : PaymentSource → String
  | .zelle => "Zelle"
  | .venmo => "Venmo"
  | .cashapp => "CashApp"
  | .paypal => "PayPal"

/-- models/payment.py: `PaymentPattern`. The two regex fields are fixed
program constants; their matching semantics are embedded below as
`searchAmount` (amount pattern, identical for all four providers) and the
abstract group-list interface of `extract_client_name` (name pattern). -/
structure PaymentPattern where
  from_emails : List String
  subject_keywords : List String
deriving DecidableEq, Repr

/-- `PaymentPattern.matches_sender`: some configured sender address is a
substring of the lower-cased from address. -/
def PaymentPattern.matches_sender (p : PaymentPattern) (from_email : String) : Bool :=
  p.from_emails.any fun s => containsL s.data (strLower from_email).data

/-- `PaymentPattern.matches_subject`: some keyword is a substring of the
lower-cased subject. -/
def PaymentPattern.matches_subject (p : PaymentPattern) (subject : String) : Bool :=
  p.subject_keywords.any fun k => containsL k.data (strLower subject).data

/-- payment_processor.py: `PaymentProcessor._initialize_patterns`, in the
dict's insertion (= iteration) order. -/
def patterns : List (PaymentSource × PaymentPattern) :=
  [ (.zelle,
      { from_emails := ["noreply@zellepay.com", "alert@zellepay.com"],
        subject_keywords := ["sent you", "received", "payment"] }),
    (.venmo,
      { from_emails := ["venmo@venmo.com", "notifications@venmo.com"],
        subject_keywords := ["paid you", "charged you", "payment"] }),
    (.cashapp,
      { from_emails := ["cash@square.com", "support@cash.app"],
        subject_keywords := ["sent you", "received", "payment"] }),
    (.paypal,
      { from_emails := ["service@paypal.com", "paypal@e.paypal.com"],
        subject_keywords := ["sent you", "received", "payment"] }) ]

/-- `PaymentProcessor.identify_payment_source`: first pattern in iteration
order matching both sender and subject, else `none`. -/
def identify_payment_source (from_email subject : String) : Option PaymentSource :=
  (patterns.find? fun sp =>
    sp.2.matches_sender from_email && sp.2.matches_subject subject).map Prod.fst

/-! ## Amount extraction

The amount regex is `\$([0-9,]+\.?[0-9]*)` for every provider.  Since the
tail `\.?[0-9]*` is nullable, the regex engine's leftmost greedy match is
deterministic: at the first position holding `'$'` followed by a digit or
comma, group 1 is the maximal run of `[0-9,]`, then an optional `'.'`
with a maximal digit run. -/

/-- Is `c` one of `[0-9,]`? -/
def isDigitComma (c : Char) : Bool := c.isDigit || charEq c ','

/-- Group 1 at a successful anchor: the maximal `[0-9,]` run after the
`'$'`, then — greedily — an optional `'.'` with the maximal digit run. -/
def amountGroupOf (rest : List Char) : List Char :=
  match rest.dropWhile isDigitComma with
  | [] => rest.takeWhile isDigitComma
  | d :: rest2 =>
    if charEq d '.' then rest.takeWhile isDigitComma ++ d :: rest2.takeWhile Char.isDigit
    else rest.takeWhile isDigitComma

/-- Attempt the amount regex anchored at the head of `l` (a `'$'` followed
by a nonempty `[0-9,]` run); returns group 1. -/
def matchAmountAt : List Char → Option (List Char)
  | [] => none
  | c :: rest =>
    if charEq c '$' && !(rest.takeWhile isDigitComma).isEmpty then some (amountGroupOf rest)
    else none

/-- `re.search` of the amount regex: leftmost match's group 1. -/
def searchAmount : List Char → Option (List Char)
  | [] => none
  | c :: cs =>
    match matchAmountAt (c :: cs) with
    | some g => some g
    | none => searchAmount cs

/-- Numeric value of a digit string. -/
def digitsVal (l : List Char) : Nat :=
  l.foldl (fun a c => 10 * a + (c.toNat - '0'.toNat)) 0

/-- Python `Decimal(s)` on strings over digits and dots (the only
characters reaching it here): accepted iff there is at most one dot and
at least one digit. -/
def parseDecimal (s : List Char) : Option ℚ :=
  match s.dropWhile Char.isDigit with
  | [] =>
    match s with
    | [] => none
    | _ :: _ => some (digitsVal s)
  | '.' :: frac =>
    if frac.all Char.isDigit && (!(s.takeWhile Char.isDigit).isEmpty || !frac.isEmpty) then
      some (mkRat (digitsVal (s.takeWhile Char.isDigit ++ frac)) (10 ^ frac.length))
    else none
  | _ => none

/-- `PaymentProcessor.extract_amount`'s two failure modes. -/
inductive AmountError
  | notFound
  | malformed
deriving DecidableEq, Repr

instance {ε α : Type} [DecidableEq ε] [DecidableEq α] : DecidableEq (Except ε α) := fun a b =>
  match a, b with
  | .ok x, .ok y =>
    if h : x = y then isTrue (congrArg Except.ok h) else isFalse fun hh => h (Except.ok.inj hh)
  | .error x, .error y =>
    if h : x = y then isTrue (congrArg Except.error h) else isFalse fun hh => h (Except.error.inj hh)
  | .ok _, .error _ => isFalse fun hh => Except.noConfusion hh
  | .error _, .ok _ => isFalse fun hh => Except.noConfusion hh

/-- `PaymentProcessor.extract_amount`: search the amount regex, strip
commas from group 1, parse as a Decimal; `PaymentProcessorError` branches
become `Except.error`. -/
def extract_amount (text : String) : Except AmountError ℚ :=
  match searchAmount text.data with
  | none => .error .notFound
  | some g =>
    match parseDecimal (g.filter fun c => !charEq c ',') with
    | none => .error .malformed
    | some q => .ok q

/-! ## Payer-name extraction

`extract_client_name` calls `re.search(pattern, text, re.IGNORECASE)` and
then scans `match.groups()` for the first truthy group with a truthy
`strip()`.  The regex engine is external; its result is passed in as
`none` (no match) or `some groups`, where a list entry `none` is a
non-participating alternation group. -/

/-- One step of the group loop `if group and group.strip(): return
group.strip()`: a participating group that is truthy and strips to a
truthy string yields its stripped form. -/
def pickGroup (g? : Option String) : Option String :=
  match g? with
  | none => none
  | some g => if !(g == "") && !(pyStrip g == "") then some (pyStrip g) else none

/-- `PaymentProcessor.extract_client_name`, over the engine's result. -/
def extract_client_name (searchResult : Option (List (Option String))) : String :=
  match searchResult with
  | none => "Unknown"
  | some groups => (groups.findSome? pickGroup).getD "Unknown"

/-! ## Records and the Excel store

`datetime` fields are carried as the formatted strings the code stores
and compares (`%Y-%m-%d` for `date`, `%Y-%m-%d %H:%M:%S` for
`processed_at`).  The Excel sheet behind `ExcelStorageHandler` is the
list of its data rows. -/

/-- models/payment.py: `PaymentRecord` (frozen dataclass). -/
structure PaymentRecord where
  date : String
  amount : ℚ
  source : PaymentSource
  client_name : String
  email_subject : String
  processed_at : String
deriving DecidableEq, Repr

/-- One data row of the Excel sheet, in the handler's column order
`Date, Amount, Source, Client Name, Email Subject, Processed Date`. -/
structure StoredRow where
  date : String
  amount : ℚ
  source : String
  client_name : String
  email_subject : String
  processed_date : String
deriving DecidableEq, Repr

/-- `PaymentRecord.to_dict`: the row written for a record. -/
def PaymentRecord.to_dict (r : PaymentRecord) : StoredRow :=
  { date := r.date, amount := r.amount, source := r.source.value,
    client_name := r.client_name, email_subject := r.email_subject,
    processed_date := r.processed_at }

/-- excel_handler.py: `ExcelStorageHandler.record_exists` on loaded rows —
the dedup mask compares exactly the Date, Amount, Source and Client Name
columns. -/
def record_exists (rows : List StoredRow) (r : PaymentRecord) : Bool :=
  rows.any fun row =>
    decide (row.date = r.date ∧ row.amount = r.amount ∧
      row.source = r.source.value ∧ row.client_name = r.client_name)

/-- `ExcelStorageHandler.save_record` on the happy I/O path: skip when a
matching row exists, otherwise append `to_dict`. -/
def save_record (rows : List StoredRow) (r : PaymentRecord) : List StoredRow :=
  if record_exists rows r then rows else rows ++ [r.to_dict]

/-- `ExcelStorageHandler.save_record` with an injected write-failure flag:
a duplicate returns early before any write is attempted; otherwise a
failing load/concat/write raises `StorageError`, modelled as `none`. -/
def save_record_result (rows : List StoredRow) (r : PaymentRecord) (writeFails : Bool) :
    Option (List StoredRow) :=
  if record_exists rows r then some rows
  else if writeFails then none
  else some (rows ++ [r.to_dict])

/-- Outcomes of `_load_dataframe` / the dedup lookup, for
`record_exists`'s own error handling:
`ok rows` — the sheet read fine; `readFailure` — `pd.read_excel` raised,
`_load_dataframe` caught it and substituted an empty frame;
`lookupFailure` — the frame loaded but the column lookup itself raised
(caught by `record_exists`'s outer handler). -/
inductive LoadOutcome
  | ok (rows : List StoredRow)
  | readFailure
  | lookupFailure
deriving DecidableEq, Repr

/-- `ExcelStorageHandler.record_exists` including its error handling:
never raises; a failed read yields an empty frame (mask matches nothing)
and a failed lookup is caught, both returning `false`. -/
def record_exists_io (lo : LoadOutcome) (r : PaymentRecord) : Bool :=
  match lo with
  | .ok rows => record_exists rows r
  | .readFailure => record_exists [] r
  | .lookupFailure => false

/-- The frame `save_record`'s append step starts from, per load outcome
(`_load_dataframe` maps a failed read to an empty frame). -/
def load_dataframe (lo : LoadOutcome) : List StoredRow :=
  match lo with
  | .ok rows => rows
  | .readFailure => []
  | .lookupFailure => []

/-- `save_record` as executed over a load outcome: existence check, then
append `to_dict` to whatever frame the load produced. -/
def save_record_io (lo : LoadOutcome) (r : PaymentRecord) : List StoredRow :=
  if record_exists_io lo r then load_dataframe lo
  else load_dataframe lo ++ [r.to_dict]

/-! ## The tracker pipeline (core/tracker.py `process_new_emails`)

Environment nondeterminism is injected where the code observes it: per
sender, the `search_emails` call either raises (`connectionError`) or
yields a list of message ids, each paired with what happens when the
tracker handles it. -/

/-- The content the pipeline reads from a fetched message:
`date_header_day` is `some d` when `parse_email_date` parses the Date
header to a datetime on day `d`, `none` when parsing fails (the code then
falls back to `datetime.now()`). -/
structure RawEmail where
  from_addr : String
  subject : String
  body : String
  date_header_day : Option String
deriving DecidableEq, Repr

/-- `PaymentProcessor.parse_email_date`, projected to the `%Y-%m-%d` day
the record stores: header day when parseable, else today. -/
def parse_email_date (dateHeaderDay : Option String) (nowDay : String) : String :=
  dateHeaderDay.getD nowDay

/-- `PaymentProcessor.process_email`: classify, extract amount (a
`PaymentProcessorError` is caught and yields `None`), extract the client
name, parse the date, build the record.  `ns` is the regex engine's
result for the provider's name pattern on the combined text; `nowDay` and
`nowStamp` are the wall clock read by the date fallback and
`processed_at`. -/
def process_email (ns : PaymentSource → String → Option (List (Option String)))
    (nowDay nowStamp : String) (e : RawEmail) : Option PaymentRecord :=
  match identify_payment_source e.from_addr e.subject with
  | none => none
  | some source =>
    match extract_amount (e.body ++ " " ++ e.subject) with
    | .error _ => none
    | .ok amount =>
      some { date := parse_email_date e.date_header_day nowDay,
             amount := amount,
             source := source,
             client_name := extract_client_name (ns source (e.body ++ " " ++ e.subject)),
             email_subject := e.subject,
             processed_at := nowStamp }

/-- What happens when the tracker handles one message id that is not in
the seen set: the fetch returns `None`; or an unexpected exception is
raised while fetching/decoding/processing it; or it yields a message,
with a flag for whether the subsequent storage write fails. -/
inductive MsgOutcome
  | fetchNone
  | raises
  | ok (e : RawEmail) (writeFails : Bool)
deriving DecidableEq, Repr

/-- One sender in the cycle: `search_emails` raises (`EmailConnectionError`
or any other exception, both caught at the sender level), or returns
message ids with their outcomes. -/
inductive SenderOutcome
  | connectionError
  | msgs (l : List (String × MsgOutcome))
deriving DecidableEq, Repr

/-- The orchestrator state the loop body mutates: the in-memory seen set
`processed_emails`, the Excel store, and the cycle's running
`records_processed` counter. -/
structure TrackerState where
  processed_emails : List String
  store : List StoredRow
  records_processed : Nat
deriving DecidableEq, Repr

/-- The body of the per-message `if payment_record:` block and the final
`self.processed_emails.add`: save (catching `StorageError`), count a
non-raising save, and always mark the id as processed. -/
def applyCandidate (ns : PaymentSource → String → Option (List (Option String)))
    (nowDay nowStamp : String) (st : TrackerState) (id : String) (e : RawEmail)
    (writeFails : Bool) : TrackerState :=
  match process_email ns nowDay nowStamp e with
  | none => { st with processed_emails := id :: st.processed_emails }
  | some r =>
    match save_record_result st.store r writeFails with
    | none => { st with processed_emails := id :: st.processed_emails }
    | some rows =>
      { processed_emails := id :: st.processed_emails,
        store := rows,
        records_processed := st.records_processed + 1 }

/-- The `for email_id in email_ids:` loop for one sender.  The seen-set
check runs first and `continue`s; a fetch returning `None` `continue`s
without marking; an unexpected exception propagates to the per-sender
handler, abandoning the remaining ids of this sender. -/
def processMsgList (ns : PaymentSource → String → Option (List (Option String)))
    (nowDay nowStamp : String) : List (String × MsgOutcome) → TrackerState → TrackerState
  | [], st => st
  | (id, oc) :: rest, st =>
    if id ∈ st.processed_emails then processMsgList ns nowDay nowStamp rest st
    else
      match oc with
      | .fetchNone => processMsgList ns nowDay nowStamp rest st
      | .raises => st
      | .ok e writeFails =>
        processMsgList ns nowDay nowStamp rest (applyCandidate ns nowDay nowStamp st id e writeFails)

/-- One iteration of the `for sender in supported_senders:` loop: a
connection error (or any exception escaping the message loop) is caught
and logged, and the cycle moves on with the state as it stands. -/
def processSender (ns : PaymentSource → String → Option (List (Option String)))
    (nowDay nowStamp : String) (st : TrackerState) (so : SenderOutcome) : TrackerState :=
  match so with
  | .connectionError => st
  | .msgs l => processMsgList ns nowDay nowStamp l st

/-- `IncomeTracker.process_new_emails`: one check cycle over all senders,
starting its `records_processed` counter at zero. -/
def process_new_emails (ns : PaymentSource → String → Option (List (Option String)))
    (nowDay nowStamp : String) (senders : List SenderOutcome)
    (seen : List String) (store : List StoredRow) : TrackerState :=
  senders.foldl (processSender ns nowDay nowStamp) ⟨seen, store, 0⟩

/-! ## Summary statistics (excel_handler.py `get_summary_stats`) -/

/-- The statistics keys present only for a nonempty frame. -/
structure ExtendedStats where
  average_amount : ℚ
  max_amount : ℚ
  min_amount : ℚ
  unique_clients : Nat
  by_source : String → Nat

/-- The dictionary `get_summary_stats` returns: an empty frame yields
only `total_records` and `total_amount` (both zero); otherwise all seven
keys are present. -/
structure SummaryStats where
  total_records : Nat
  total_amount : ℚ
  extended : Option ExtendedStats

/-- Rational addition written with `mkRat` so that it evaluates by kernel
reduction; `qadd_eq_add` below shows it is ordinary addition on `ℚ`. -/
def qadd (a b : ℚ) : ℚ := mkRat (a.num * b.den + b.num * a.den) (a.den * b.den)

/-- `df["Amount"].sum()`: the sum of the Amount column. -/
def sumAmounts (rows : List StoredRow) : ℚ :=
  (rows.map StoredRow.amount).foldl qadd 0

/-- `ExcelStorageHandler.get_summary_stats` over the loaded rows.
`df["Amount"].mean()` is the exact quotient sum / count, written with
`mkRat` so that it evaluates by kernel reduction. -/
def get_summary_stats (rows : List StoredRow) : SummaryStats :=
  match rows with
  | [] => { total_records := 0, total_amount := 0, extended := none }
  | r :: rs =>
    { total_records := (r :: rs).length,
      total_amount := sumAmounts (r :: rs),
      extended := some
        { average_amount :=
            mkRat (sumAmounts (r :: rs)).num ((sumAmounts (r :: rs)).den * (r :: rs).length),
          max_amount := (rs.map StoredRow.amount).foldl (fun a b => if Rat.blt a b then b else a) r.amount,
          min_amount := (rs.map StoredRow.amount).foldl (fun a b => if Rat.blt b a then b else a) r.amount,
          unique_clients := ((r :: rs).map StoredRow.client_name).dedup.length,
          by_source := fun s => ((r :: rs).filter fun row => row.source == s).length } }

/-! ## Statement helpers and shared sample inputs -/

/-- A capture group the name-extraction loop skips: absent, empty, or
whitespace-only. -/
def groupBlank (g : Option String) : Bool :=
  match g with
  | none => true
  | some u => pyStrip u == ""

/-- The amount regex `\$([0-9,]+\.?[0-9]*)` matches somewhere in `l`:
some position holds `'$'` followed by a digit or comma. -/
def HasAmountMatch (l : List Char) : Prop :=
  ∃ pre c suf, l = pre ++ '$' :: c :: suf ∧ isDigitComma c = true

/-- The spec's Zelle scenario message (§8): sender `alert@zellepay.com`,
subject "You received a payment", body "John Smith sent you $75.00". -/
def zelleEmail : RawEmail :=
  { from_addr := "alert@zellepay.com",
    subject := "You received a payment",
    body := "John Smith sent you $75.00",
    date_header_day := some "2024-01-15" }

/-- A regex-engine behaviour for the name pattern on the Zelle scenario:
group 1 (the "X sent you" alternative) captured `"John Smith"`. -/
def zelleNameGroups : PaymentSource → String → Option (List (Option String)) :=
  fun _ _ => some [some "John Smith", none]

/-- The record the pipeline builds for `zelleEmail` at clock
`("2024-01-15", "2024-01-15 10:00:00")`. -/
def zelleRecord : PaymentRecord :=
  { date := "2024-01-15",
    amount := 75,
    source := .zelle,
    client_name := "John Smith",
    email_subject := "You received a payment",
    processed_at := "2024-01-15 10:00:00" }

/-- The Zelle scenario message with a Date header that does not parse:
`parse_email_date` then falls back to the current day of whichever run
processes it. -/
def zelleEmailNoDate : RawEmail :=
  { from_addr := "alert@zellepay.com",
    subject := "You received a payment",
    body := "John Smith sent you $75.00",
    date_header_day := none }

/-- The record a fresh run on 2024-01-16 builds for `zelleEmailNoDate`:
the date comes from that run's clock. -/
def zelleRecordDay2 : PaymentRecord :=
  { date := "2024-01-16",
    amount := 75,
    source := .zelle,
    client_name := "John Smith",
    email_subject := "You received a payment",
    processed_at := "2024-01-16 09:00:00" }

/-- Sample record: $50.00 from John Smith via Zelle. -/
def sampleRecordA : PaymentRecord :=
  { date := "2024-01-15", amount := 50, source := .zelle, client_name := "John Smith",
    email_subject := "You received $50.00", processed_at := "2024-01-15 10:00:00" }

/-- Like `sampleRecordA` but with a different subject and timestamp. -/
def sampleRecordB : PaymentRecord :=
  { date := "2024-01-15", amount := 50, source := .zelle, client_name := "John Smith",
    email_subject := "Payment received", processed_at := "2024-01-15 11:00:00" }

/-- Like `sampleRecordA` but one cent more. -/
def sampleRecordC : PaymentRecord :=
  { date := "2024-01-15", amount := mkRat 5001 100, source := .zelle, client_name := "John Smith",
    email_subject := "You received $50.01", processed_at := "2024-01-15 12:00:00" }

/-! # Theorems -/

/-! ## General helper lemmas -/

/-- `qadd` is ordinary rational addition. -/
theorem qadd_eq_add (a b : ℚ) : qadd a b = a + b := (Rat.add_def' a b).symm

/-- Adding to zero on the left. -/
theorem qadd_zero_left (a : ℚ) : qadd 0 a = a := by
  rw [qadd_eq_add, zero_add]

/-- The `mkRat` expression used for `average_amount` is the exact quotient
sum / count. -/
theorem mean_mkRat_eq_div (q : ℚ) (n : ℕ) :
    mkRat q.num (q.den * n) = q / (n : ℚ) := by
  rw [Rat.mkRat_eq_divInt]
  push_cast
  rw [Rat.divInt_eq_div]
  push_cast
  rw [div_mul_eq_div_div]
  rw [Rat.num_div_den]

/-! ## C2: classification -/

/-- C2: `identify_payment_source` returns some provider iff some pattern
matches both the sender and the subject; it returns `none` (not an error)
when no pattern matches both; and a returned provider is the first
matching one in the table's iteration order. -/
theorem identify_payment_source_spec (f s : String) :
    ((identify_payment_source f s).isSome = true ↔
      ∃ sp ∈ patterns, sp.2.matches_sender f = true ∧ sp.2.matches_subject s = true)
    ∧ (identify_payment_source f s = none ↔
      ∀ sp ∈ patterns, ¬(sp.2.matches_sender f = true ∧ sp.2.matches_subject s = true))
    ∧ (∀ src, identify_payment_source f s = some src →
      ∃ l₁ p l₂, patterns = l₁ ++ (src, p) :: l₂ ∧ p.matches_sender f = true ∧
        p.matches_subject s = true ∧
        ∀ sp ∈ l₁, ¬(sp.2.matches_sender f = true ∧ sp.2.matches_subject s = true)) := by
  unfold identify_payment_source
  refine ⟨?_, ?_, ?_⟩
  · rw [Option.isSome_map', List.find?_isSome]
    simp [Bool.and_eq_true]
  · rw [Option.map_eq_none', List.find?_eq_none]
    simp [Bool.and_eq_true]
  · intro src h
    obtain ⟨sp, hfind, hfst⟩ := Option.map_eq_some'.mp h
    obtain ⟨hp, as, bs, heq, hall⟩ := List.find?_eq_some.mp hfind
    rw [Bool.and_eq_true] at hp
    subst hfst
    refine ⟨as, sp.2, bs, heq, hp.1, hp.2, ?_⟩
    intro x hx hc
    have hx2 := hall x hx
    simp only [Bool.not_eq_true'] at hx2
    rw [hc.1, hc.2] at hx2
    simp at hx2

/-- Witness for C2 at the spec's Zelle scenario: the classifier returns
Zelle, which is the first matching pattern. -/
theorem identify_payment_source_spec_witness :
    ∃ l₁ p l₂, patterns = l₁ ++ (PaymentSource.zelle, p) :: l₂ ∧
      p.matches_sender "alert@zellepay.com" = true ∧
      p.matches_subject "You received a payment" = true ∧
      ∀ sp ∈ l₁, ¬(sp.2.matches_sender "alert@zellepay.com" = true ∧
        sp.2.matches_subject "You received a payment" = true) :=
  (identify_payment_source_spec "alert@zellepay.com" "You received a payment").2.2
    PaymentSource.zelle (by decide)

/-! ## C3: amount extraction -/

/-- The anchored amount match succeeds exactly on a `'$'` followed by a
digit or comma. -/
theorem matchAmountAt_isSome (l : List Char) :
    (matchAmountAt l).isSome = true ↔
      ∃ c suf, l = '$' :: c :: suf ∧ isDigitComma c = true := by
  cases l with
  | nil => simp [matchAmountAt]
  | cons c rest =>
    simp only [matchAmountAt]
    constructor
    · intro h
      by_cases hcond : (charEq c '$' && !(rest.takeWhile isDigitComma).isEmpty) = true
      case neg => rw [if_neg hcond] at h; simp at h
      rw [Bool.and_eq_true] at hcond
      have hc : c = '$' := by
        have h1 := hcond.1
        unfold charEq at h1
        exact of_decide_eq_true h1
      obtain ⟨d, rest2, hrest, hd⟩ :
          ∃ d rest2, rest = d :: rest2 ∧ isDigitComma d = true := by
        cases rest with
        | nil => simp at hcond
        | cons d r2 =>
          by_cases hd : isDigitComma d = true
          · exact ⟨d, r2, rfl, hd⟩
          · rw [List.takeWhile_cons] at hcond
            simp [hd] at hcond
      exact ⟨d, rest2, by rw [hc, hrest], hd⟩
    · rintro ⟨c', suf, heq, hdc⟩
      injection heq with h1 h2
      subst h1
      subst h2
      simp [charEq, List.takeWhile_cons, hdc]

/-- `searchAmount` succeeds exactly when the amount regex matches
somewhere in the text. -/
theorem searchAmount_isSome_iff (l : List Char) :
    (searchAmount l).isSome = true ↔ HasAmountMatch l := by
  induction l with
  | nil =>
    simp only [searchAmount, HasAmountMatch]
    constructor
    · intro h; simp at h
    · rintro ⟨pre, c, suf, heq, -⟩
      exact absurd heq (by simp)
  | cons c cs ih =>
    simp only [searchAmount]
    cases hm : matchAmountAt (c :: cs) with
    | some g =>
      obtain ⟨c', suf, heq, hdc⟩ := (matchAmountAt_isSome (c :: cs)).mp (by rw [hm]; rfl)
      simp only [Option.isSome_some, true_iff]
      exact ⟨[], c', suf, heq, hdc⟩
    | none =>
      rw [ih]
      have hno : ¬∃ c' suf, c :: cs = '$' :: c' :: suf ∧ isDigitComma c' = true := by
        intro hex
        have h2 := (matchAmountAt_isSome (c :: cs)).mpr hex
        rw [hm] at h2
        simp at h2
      constructor
      · rintro ⟨pre, c', suf, heq, hdc⟩
        exact ⟨c :: pre, c', suf, by rw [heq]; rfl, hdc⟩
      · rintro ⟨pre, c', suf, heq, hdc⟩
        cases pre with
        | nil => exact absurd ⟨c', suf, heq, hdc⟩ hno
        | cons p ps =>
          injection heq with h1 h2
          exact ⟨ps, c', suf, h2, hdc⟩

/-- `extract_amount` reports `AmountNotFound` exactly when the pattern has
no match in the text. -/
theorem extract_amount_notFound_iff (t : String) :
    extract_amount t = .error .notFound ↔ ¬ HasAmountMatch t.data := by
  rw [← searchAmount_isSome_iff]
  unfold extract_amount
  cases hs : searchAmount t.data with
  | none => simp
  | some g =>
    cases hp : parseDecimal (g.filter fun c => !charEq c ',') <;> simp [hp]

/-- `extract_amount` reports `AmountMalformed` exactly when the pattern
matched but the comma-stripped group does not parse as a decimal. -/
theorem extract_amount_malformed_iff (t : String) :
    extract_amount t = .error .malformed ↔
      ∃ g, searchAmount t.data = some g ∧
        parseDecimal (g.filter fun c => !charEq c ',') = none := by
  unfold extract_amount
  cases hs : searchAmount t.data with
  | none => simp
  | some g =>
    cases hp : parseDecimal (g.filter fun c => !charEq c ',') with
    | none => simp [hp]
    | some q => simp [hp]

/-- `extract_amount` always returns a value or one of the two errors. -/
theorem extract_amount_trichotomy (t : String) :
    extract_amount t = .error .notFound ∨ extract_amount t = .error .malformed ∨
      ∃ q, extract_amount t = .ok q := by
  unfold extract_amount
  cases hs : searchAmount t.data with
  | none => exact .inl rfl
  | some g =>
    cases hp : parseDecimal (g.filter fun c => !charEq c ',') with
    | none =>
      refine .inr (.inl ?_)
      simp [hp]
    | some q =>
      refine .inr (.inr ⟨q, ?_⟩)
      simp [hp]

/-- C3 (amended): when the leftmost amount match in the text is
`$1,234.56`, extraction strips the comma and returns the exact decimal
1234.56; `AmountNotFound` is raised exactly when the pattern has no
match; `AmountMalformed` exactly when the match does not parse as a
decimal after comma stripping; and extraction never returns a value in
the error cases nor an error in the success case. -/
theorem extract_amount_spec (t : String) :
    (searchAmount t.data = some ("1,234.56".data) →
      extract_amount t = .ok (mkRat 123456 100))
    ∧ (extract_amount t = .error .notFound ↔ ¬ HasAmountMatch t.data)
    ∧ (extract_amount t = .error .malformed ↔
        ∃ g, searchAmount t.data = some g ∧
          parseDecimal (g.filter fun c => !charEq c ',') = none)
    ∧ (extract_amount t = .error .notFound ∨ extract_amount t = .error .malformed ∨
        ∃ q, extract_amount t = .ok q) := by
  refine ⟨?_, extract_amount_notFound_iff t, extract_amount_malformed_iff t,
    extract_amount_trichotomy t⟩
  intro h
  unfold extract_amount
  rw [h]
  decide

/-- C3 counterexample: a text that contains `"$1,234.56"` but on which
extraction returns 5 — the leftmost `$`-amount wins, so the claim's
"on a text containing `$1,234.56` returns 1234.56" fails as stated. -/
theorem extract_amount_containing_counterexample :
    containsL ("$1,234.56".data) ("You got $5 and $1,234.56".data) = true
    ∧ extract_amount "You got $5 and $1,234.56" = .ok 5
    ∧ (Except.ok (5 : ℚ) : Except AmountError ℚ) ≠ .ok (mkRat 123456 100) :=
  ⟨by decide, by decide, by decide⟩

/-- Witness for C3 on the spec's own example text. -/
theorem extract_amount_spec_witness :
    extract_amount "Payment of $1,234.56 received" = .ok (mkRat 123456 100) :=
  (extract_amount_spec "Payment of $1,234.56 received").1 (by decide)

/-! ## C5: payer-name extraction -/

/-- A blank group is skipped by the group loop. -/
theorem pickGroup_eq_none_of_blank (g : Option String) (h : groupBlank g = true) :
    pickGroup g = none := by
  cases g with
  | none => rfl
  | some u =>
    simp only [groupBlank, beq_iff_eq] at h
    simp [pickGroup, h]

/-- A group that strips to a nonempty string is returned stripped. -/
theorem pickGroup_eq_some_of_nonblank (t : String) (h : pyStrip t ≠ "") :
    pickGroup (some t) = some (pyStrip t) := by
  have ht : ¬(t = "") := by
    intro he
    rw [he] at h
    exact h rfl
  simp [pickGroup, ht, h]

/-- A list of blank groups yields no pick. -/
theorem findSome?_pickGroup_eq_none (l : List (Option String))
    (h : l.all groupBlank = true) : l.findSome? pickGroup = none := by
  induction l with
  | nil => rfl
  | cons g gs ih =>
    rw [List.all_cons, Bool.and_eq_true] at h
    rw [List.findSome?_cons, pickGroup_eq_none_of_blank g h.1]
    exact ih h.2

/-- C5: `extract_client_name` never raises and returns the first capture
group (in group order) that is nonempty after trimming, trimmed; when the
pattern has no match, or every group is absent, empty or whitespace-only,
it returns exactly `"Unknown"`. -/
theorem extract_client_name_spec :
    extract_client_name none = "Unknown"
    ∧ (∀ groups, groups.all groupBlank = true →
        extract_client_name (some groups) = "Unknown")
    ∧ (∀ l₁ t l₂, l₁.all groupBlank = true → pyStrip t ≠ "" →
        extract_client_name (some (l₁ ++ some t :: l₂)) = pyStrip t) := by
  refine ⟨rfl, ?_, ?_⟩
  · intro groups hall
    show (groups.findSome? pickGroup).getD "Unknown" = "Unknown"
    rw [findSome?_pickGroup_eq_none groups hall]
    rfl
  · intro l₁ t l₂ hblank ht
    show ((l₁ ++ some t :: l₂).findSome? pickGroup).getD "Unknown" = pyStrip t
    rw [List.findSome?_append, findSome?_pickGroup_eq_none l₁ hblank,
      List.findSome?_cons, pickGroup_eq_some_of_nonblank t ht]
    rfl

/-- Witness for C5: leading whitespace-only and absent groups are
skipped, and the payer name comes back trimmed. -/
theorem extract_client_name_spec_witness :
    extract_client_name (some [some "  ", none, some " John Smith "]) = pyStrip " John Smith " :=
  extract_client_name_spec.2.2 [some "  ", none] " John Smith " [] (by decide) (by decide)

/-! ## C4: the deduplication key -/

/-- Existence over a concatenation of sheets. -/
theorem record_exists_append (xs ys : List StoredRow) (r : PaymentRecord) :
    record_exists (xs ++ ys) r = (record_exists xs r || record_exists ys r) := by
  unfold record_exists
  exact List.any_append

/-- C4: the dedup key is exactly (date, amount, provider, payer name):
two candidates equal on those four fields but with different subjects are
treated as duplicates (only the first row is kept), while two candidates
equal except for amounts one cent apart are both persisted. -/
theorem dedup_key_spec :
    (∀ (s₀ : List StoredRow) (r₁ r₂ : PaymentRecord),
      r₁.date = r₂.date → r₁.amount = r₂.amount → r₁.source = r₂.source →
      r₁.client_name = r₂.client_name → r₁.email_subject ≠ r₂.email_subject →
      record_exists s₀ r₁ = false →
      save_record (save_record s₀ r₁) r₂ = s₀ ++ [r₁.to_dict])
    ∧ (∀ (s₀ : List StoredRow) (r₁ r₂ : PaymentRecord),
      r₁.date = r₂.date → r₂.amount = qadd r₁.amount (mkRat 1 100) →
      r₁.source = r₂.source → r₁.client_name = r₂.client_name →
      record_exists s₀ r₁ = false → record_exists s₀ r₂ = false →
      save_record (save_record s₀ r₁) r₂ = s₀ ++ [r₁.to_dict, r₂.to_dict]) := by
  constructor
  · intro s₀ r₁ r₂ hd ha hs hc _ hnew
    have h1 : save_record s₀ r₁ = s₀ ++ [r₁.to_dict] := by
      simp [save_record, hnew]
    rw [h1]
    have h2 : record_exists (s₀ ++ [r₁.to_dict]) r₂ = true := by
      rw [record_exists_append]
      have h3 : record_exists [r₁.to_dict] r₂ = true := by
        unfold record_exists
        simp [PaymentRecord.to_dict, hd, ha, hs, hc]
      rw [h3, Bool.or_true]
    simp [save_record, h2]
  · intro s₀ r₁ r₂ hd ha hs hc hnew1 hnew2
    have hne : r₁.amount ≠ r₂.amount := by
      rw [ha, qadd_eq_add]
      intro h
      have h0 : mkRat 1 100 = (0 : ℚ) := by
        have h1 := h.symm
        rwa [add_right_eq_self] at h1
      exact absurd h0 (by decide)
    have h1 : save_record s₀ r₁ = s₀ ++ [r₁.to_dict] := by
      simp [save_record, hnew1]
    rw [h1]
    have h2 : record_exists (s₀ ++ [r₁.to_dict]) r₂ = false := by
      rw [record_exists_append, hnew2, Bool.false_or]
      unfold record_exists
      simp [PaymentRecord.to_dict, hne]
    simp [save_record, h2]

/-- Witness for C4: a $50.00 record blocks a second $50.00 candidate with
a different subject, while a $50.01 candidate is appended alongside. -/
theorem dedup_key_spec_witness :
    save_record (save_record [] sampleRecordA) sampleRecordB = [sampleRecordA.to_dict]
    ∧ save_record (save_record [] sampleRecordA) sampleRecordC
        = [sampleRecordA.to_dict, sampleRecordC.to_dict] :=
  ⟨dedup_key_spec.1 [] sampleRecordA sampleRecordB rfl rfl rfl rfl (by decide) rfl,
   dedup_key_spec.2 [] sampleRecordA sampleRecordC rfl (by decide) rfl rfl rfl rfl⟩

/-! ## Pipeline step lemmas -/

/-- `process_email` succeeds exactly when classification and amount
extraction do, and the record it builds is determined by the message, the
engine's name groups and the clock. -/
theorem process_email_eq_some (ns : PaymentSource → String → Option (List (Option String)))
    (nd nt : String) (e : RawEmail) (r : PaymentRecord) :
    process_email ns nd nt e = some r ↔
      ∃ source amount,
        identify_payment_source e.from_addr e.subject = some source ∧
        extract_amount (e.body ++ " " ++ e.subject) = .ok amount ∧
        r = { date := parse_email_date e.date_header_day nd, amount := amount, source := source,
              client_name := extract_client_name (ns source (e.body ++ " " ++ e.subject)),
              email_subject := e.subject, processed_at := nt } := by
  unfold process_email
  cases hI : identify_payment_source e.from_addr e.subject with
  | none => simp
  | some src =>
    cases hA : extract_amount (e.body ++ " " ++ e.subject) with
    | error err => simp
    | ok amt =>
      constructor
      · intro h
        exact ⟨src, amt, rfl, rfl, (Option.some.inj h).symm⟩
      · rintro ⟨source, amount, hs, ha, hr⟩
        obtain rfl := Option.some.inj hs
        obtain rfl := Except.ok.inj ha
        rw [hr]

/-- An empty id list leaves the state unchanged. -/
theorem processMsgList_nil (ns : PaymentSource → String → Option (List (Option String)))
    (nd nt : String) (st : TrackerState) : processMsgList ns nd nt [] st = st := rfl

/-- A message id already in the seen set is skipped before any fetch. -/
theorem processMsgList_cons_seen (ns : PaymentSource → String → Option (List (Option String)))
    (nd nt : String) (id : String) (oc : MsgOutcome) (rest : List (String × MsgOutcome))
    (st : TrackerState) (h : id ∈ st.processed_emails) :
    processMsgList ns nd nt ((id, oc) :: rest) st = processMsgList ns nd nt rest st := by
  simp only [processMsgList]
  rw [if_pos h]

/-- An unexpected exception on an unseen message abandons the rest of
this sender's ids, leaving the state as it stands. -/
theorem processMsgList_cons_raises (ns : PaymentSource → String → Option (List (Option String)))
    (nd nt : String) (id : String) (rest : List (String × MsgOutcome)) (st : TrackerState)
    (h : id ∉ st.processed_emails) :
    processMsgList ns nd nt ((id, .raises) :: rest) st = st := by
  simp only [processMsgList]
  rw [if_neg h]

/-- A fetched unseen message is handled by `applyCandidate`, then the
loop continues. -/
theorem processMsgList_cons_ok (ns : PaymentSource → String → Option (List (Option String)))
    (nd nt : String) (id : String) (e : RawEmail) (wf : Bool)
    (rest : List (String × MsgOutcome)) (st : TrackerState) (h : id ∉ st.processed_emails) :
    processMsgList ns nd nt ((id, .ok e wf) :: rest) st
      = processMsgList ns nd nt rest (applyCandidate ns nd nt st id e wf) := by
  simp only [processMsgList]
  rw [if_neg h]

/-- Successful save of a fresh candidate: row appended, counter bumped,
id marked seen. -/
theorem applyCandidate_fresh (ns : PaymentSource → String → Option (List (Option String)))
    (nd nt : String) (st : TrackerState) (id : String) (e : RawEmail) (r : PaymentRecord)
    (hr : process_email ns nd nt e = some r) (hnew : record_exists st.store r = false) :
    applyCandidate ns nd nt st id e false
      = ⟨id :: st.processed_emails, st.store ++ [r.to_dict], st.records_processed + 1⟩ := by
  unfold applyCandidate
  rw [hr]
  unfold save_record_result
  simp [hnew]

/-- Content-duplicate candidate: `save_record` returns early without
writing, yet the counter is still bumped and the id marked seen. -/
theorem applyCandidate_duplicate (ns : PaymentSource → String → Option (List (Option String)))
    (nd nt : String) (st : TrackerState) (id : String) (e : RawEmail) (wf : Bool)
    (r : PaymentRecord) (hr : process_email ns nd nt e = some r)
    (hdup : record_exists st.store r = true) :
    applyCandidate ns nd nt st id e wf
      = ⟨id :: st.processed_emails, st.store, st.records_processed + 1⟩ := by
  unfold applyCandidate
  rw [hr]
  unfold save_record_result
  simp [hdup]

/-- Failing write on a fresh candidate: `StorageError` is caught, nothing
is stored or counted, but the id is still marked seen. -/
theorem applyCandidate_storage_error (ns : PaymentSource → String → Option (List (Option String)))
    (nd nt : String) (st : TrackerState) (id : String) (e : RawEmail) (r : PaymentRecord)
    (hr : process_email ns nd nt e = some r) (hnew : record_exists st.store r = false) :
    applyCandidate ns nd nt st id e true
      = ⟨id :: st.processed_emails, st.store, st.records_processed⟩ := by
  unfold applyCandidate
  rw [hr]
  unfold save_record_result
  simp [hnew]

/-! ## C1: pipeline idempotence -/

/-- C1 (amended): feeding the same raw message through the pipeline twice
in one run persists exactly one record (the second occurrence is
short-circuited by the seen set, whatever its outcome would have been);
and, provided the message's Date header parses, running the message once
in each of two fresh runs against the same store persists exactly one
record (the dedup key is then clock-independent, so the second run
rebuilds the same key and the store existence check skips the write).
The proviso is necessary: see `pipeline_cross_run_counterexample`. -/
theorem pipeline_idempotent (ns : PaymentSource → String → Option (List (Option String)))
    (nd nt nd2 nt2 : String) (e : RawEmail) (id id2 : String) (oc2 : MsgOutcome)
    (s₀ : List StoredRow) (r : PaymentRecord)
    (hr : process_email ns nd nt e = some r)
    (hnew : record_exists s₀ r = false) :
    (process_new_emails ns nd nt [.msgs [(id, .ok e false), (id, oc2)]] [] s₀).store
      = s₀ ++ [r.to_dict]
    ∧ (e.date_header_day.isSome = true →
      (process_new_emails ns nd2 nt2 [.msgs [(id2, .ok e false)]] []
          (process_new_emails ns nd nt [.msgs [(id, .ok e false)]] [] s₀).store).store
        = s₀ ++ [r.to_dict]) := by
  have hA := applyCandidate_fresh ns nd nt ⟨[], s₀, 0⟩ id e r hr hnew
  constructor
  · show (processMsgList ns nd nt [(id, .ok e false), (id, oc2)] ⟨[], s₀, 0⟩).store = _
    rw [processMsgList_cons_ok ns nd nt id e false _ _ (List.not_mem_nil id), hA,
      processMsgList_cons_seen ns nd nt id oc2 _ _ (List.mem_cons_self id []),
      processMsgList_nil]
  · intro hsome
    obtain ⟨d, hd⟩ := Option.isSome_iff_exists.mp hsome
    have hrun1 : (process_new_emails ns nd nt [.msgs [(id, .ok e false)]] [] s₀).store
        = s₀ ++ [r.to_dict] := by
      show (processMsgList ns nd nt [(id, .ok e false)] ⟨[], s₀, 0⟩).store = _
      rw [processMsgList_cons_ok ns nd nt id e false _ _ (List.not_mem_nil id), hA,
        processMsgList_nil]
    rw [hrun1]
    obtain ⟨source, amount, hI, hAmt, hreq⟩ := (process_email_eq_some ns nd nt e r).mp hr
    have hr2 : process_email ns nd2 nt2 e = some
        { date := parse_email_date e.date_header_day nd2, amount := amount, source := source,
          client_name := extract_client_name (ns source (e.body ++ " " ++ e.subject)),
          email_subject := e.subject, processed_at := nt2 } :=
      (process_email_eq_some ns nd2 nt2 e _).mpr ⟨source, amount, hI, hAmt, rfl⟩
    have hdate : parse_email_date e.date_header_day nd2 = parse_email_date e.date_header_day nd := by
      unfold parse_email_date
      rw [hd]
      rfl
    have hdup : record_exists (s₀ ++ [r.to_dict])
        { date := parse_email_date e.date_header_day nd2, amount := amount, source := source,
          client_name := extract_client_name (ns source (e.body ++ " " ++ e.subject)),
          email_subject := e.subject, processed_at := nt2 } = true := by
      rw [record_exists_append]
      have hone : record_exists [r.to_dict]
          { date := parse_email_date e.date_header_day nd2, amount := amount, source := source,
            client_name := extract_client_name (ns source (e.body ++ " " ++ e.subject)),
            email_subject := e.subject, processed_at := nt2 } = true := by
        unfold record_exists
        simp [PaymentRecord.to_dict, hreq, hdate]
      rw [hone, Bool.or_true]
    show (processMsgList ns nd2 nt2 [(id2, .ok e false)] ⟨[], s₀ ++ [r.to_dict], 0⟩).store = _
    rw [processMsgList_cons_ok ns nd2 nt2 id2 e false _ _ (List.not_mem_nil id2),
      applyCandidate_duplicate ns nd2 nt2 ⟨[], s₀ ++ [r.to_dict], 0⟩ id2 e false _ hr2 hdup,
      processMsgList_nil]

/-- Witness for C1 on the spec's Zelle scenario message. -/
theorem pipeline_idempotent_witness :
    (process_new_emails zelleNameGroups "2024-01-15" "2024-01-15 10:00:00"
        [.msgs [("1", .ok zelleEmail false), ("1", .ok zelleEmail false)]] [] []).store
      = [zelleRecord.to_dict]
    ∧ (process_new_emails zelleNameGroups "2024-02-01" "2024-02-01 09:00:00"
        [.msgs [("7", .ok zelleEmail false)]] []
        (process_new_emails zelleNameGroups "2024-01-15" "2024-01-15 10:00:00"
          [.msgs [("1", .ok zelleEmail false)]] [] []).store).store
      = [zelleRecord.to_dict] :=
  ⟨(pipeline_idempotent zelleNameGroups "2024-01-15" "2024-01-15 10:00:00" "2024-02-01"
      "2024-02-01 09:00:00" zelleEmail "1" "7" (.ok zelleEmail false) [] zelleRecord
      (by decide) rfl).1,
   (pipeline_idempotent zelleNameGroups "2024-01-15" "2024-01-15 10:00:00" "2024-02-01"
      "2024-02-01 09:00:00" zelleEmail "1" "7" (.ok zelleEmail false) [] zelleRecord
      (by decide) rfl).2 rfl⟩

/-- C1 counterexample: for a message whose Date header does not parse,
the record date falls back to `datetime.now()` of the run processing it,
so two fresh runs (empty seen set) on different days build different
(date, amount, provider, payer) keys against the same store: the second
run's existence check finds nothing and the same payment is persisted
twice, refuting the universal cross-run half of the claim. -/
theorem pipeline_cross_run_counterexample :
    (process_new_emails zelleNameGroups "2024-01-16" "2024-01-16 09:00:00"
        [.msgs [("1", .ok zelleEmailNoDate false)]] []
        (process_new_emails zelleNameGroups "2024-01-15" "2024-01-15 10:00:00"
          [.msgs [("1", .ok zelleEmailNoDate false)]] [] []).store).store
      = [zelleRecord.to_dict, zelleRecordDay2.to_dict]
    ∧ ([zelleRecord.to_dict, zelleRecordDay2.to_dict] : List StoredRow).length = 2 :=
  ⟨by decide, rfl⟩

/-! ## C6: the records-processed count -/

/-- C6 counterexample: a cycle whose only candidate is skipped by the
content-equality dedup layer still reports `records_processed = 1` while
persisting nothing new — `save_record` returns normally after a dedup
skip, and the counter is incremented after any non-raising save call. -/
theorem records_processed_counts_dedup_skips :
    (process_new_emails zelleNameGroups "2024-01-15" "2024-01-15 10:00:00"
        [.msgs [("1", .ok zelleEmail false)]] [] [zelleRecord.to_dict]).records_processed = 1
    ∧ (process_new_emails zelleNameGroups "2024-01-15" "2024-01-15 10:00:00"
        [.msgs [("1", .ok zelleEmail false)]] [] [zelleRecord.to_dict]).store
      = [zelleRecord.to_dict] :=
  ⟨by decide, by decide⟩

/-- C6 (amended): the counter counts the candidates whose `save_record`
call returned without a `StorageError`: a dedup-skipped candidate still
increments it, and only a failing write (necessarily on a non-duplicate,
since a duplicate returns before writing) leaves it unchanged. -/
theorem records_processed_spec (ns : PaymentSource → String → Option (List (Option String)))
    (nd nt : String) (st : TrackerState) (id : String) (e : RawEmail) (wf : Bool)
    (r : PaymentRecord) (hid : id ∉ st.processed_emails)
    (hr : process_email ns nd nt e = some r) :
    (processMsgList ns nd nt [(id, .ok e wf)] st).records_processed
      = st.records_processed
        + (if wf = true ∧ record_exists st.store r = false then 0 else 1) := by
  rw [processMsgList_cons_ok ns nd nt id e wf _ _ hid, processMsgList_nil]
  cases hex : record_exists st.store r with
  | true =>
    rw [applyCandidate_duplicate ns nd nt st id e wf r hr hex]
    simp
  | false =>
    cases wf with
    | true =>
      rw [applyCandidate_storage_error ns nd nt st id e r hr hex]
      simp
    | false =>
      rw [applyCandidate_fresh ns nd nt st id e r hr hex]
      simp

/-- Witness for C6 (amended): a failing write does not increment the
counter. -/
theorem records_processed_spec_witness :
    (processMsgList zelleNameGroups "2024-01-15" "2024-01-15 10:00:00"
        [("1", .ok zelleEmail true)] ⟨[], [], 0⟩).records_processed = 0 :=
  records_processed_spec zelleNameGroups "2024-01-15" "2024-01-15 10:00:00" ⟨[], [], 0⟩
    "1" zelleEmail true zelleRecord (List.not_mem_nil "1") (by decide)

/-! ## C7: exception granularity -/

/-- C7 counterexample: an unexpected exception on the first message of a
sender abandons that sender's remaining messages — the valid payment
message "2" is neither stored, counted, nor marked seen, although on its
own it would be processed. -/
theorem exception_aborts_sender_counterexample :
    process_new_emails zelleNameGroups "2024-01-15" "2024-01-15 10:00:00"
        [.msgs [("1", .raises), ("2", .ok zelleEmail false)]] [] []
      = ⟨[], [], 0⟩
    ∧ process_new_emails zelleNameGroups "2024-01-15" "2024-01-15 10:00:00"
        [.msgs [("2", .ok zelleEmail false)]] [] []
      = ⟨["2"], [zelleRecord.to_dict], 1⟩ :=
  ⟨by decide, by decide⟩

/-- C7 (amended): an uncaught exception while handling one message is
caught at per-sender granularity: the remaining unseen messages of that
sender are abandoned for this cycle, but the cycle continues with the
following senders from the state as it stands. -/
theorem exception_granularity (ns : PaymentSource → String → Option (List (Option String)))
    (nd nt : String) (id : String) (rest : List (String × MsgOutcome))
    (more : List SenderOutcome) (st : TrackerState) (hid : id ∉ st.processed_emails) :
    processMsgList ns nd nt ((id, .raises) :: rest) st = st
    ∧ List.foldl (processSender ns nd nt) st (.msgs ((id, .raises) :: rest) :: more)
      = List.foldl (processSender ns nd nt) st more := by
  have h1 := processMsgList_cons_raises ns nd nt id rest st hid
  refine ⟨h1, ?_⟩
  rw [List.foldl_cons]
  show List.foldl (processSender ns nd nt) (processMsgList ns nd nt ((id, .raises) :: rest) st) more = _
  rw [h1]

/-- Witness for C7 (amended): with one later sender, only its message is
processed. -/
theorem exception_granularity_witness :
    List.foldl (processSender zelleNameGroups "2024-01-15" "2024-01-15 10:00:00") ⟨[], [], 0⟩
        [.msgs [("1", .raises), ("9", .fetchNone)], .msgs [("2", .ok zelleEmail false)]]
      = List.foldl (processSender zelleNameGroups "2024-01-15" "2024-01-15 10:00:00") ⟨[], [], 0⟩
        [.msgs [("2", .ok zelleEmail false)]] :=
  (exception_granularity zelleNameGroups "2024-01-15" "2024-01-15 10:00:00" "1"
    [("9", .fetchNone)] [.msgs [("2", .ok zelleEmail false)]] ⟨[], [], 0⟩
    (List.not_mem_nil "1")).2

/-! ## C8: the seen set is updated on every persistence outcome -/

/-- C8: once a message yields a candidate record, its id joins the seen
set whatever the persistence outcome — successful write, dedup skip, or a
write failing with a logged (never propagated) `StorageError` — so the id
is skipped for the rest of the run. -/
theorem seen_set_always_updated (ns : PaymentSource → String → Option (List (Option String)))
    (nd nt : String) (st : TrackerState) (id : String) (e : RawEmail) (wf : Bool)
    (r : PaymentRecord) (hid : id ∉ st.processed_emails)
    (hr : process_email ns nd nt e = some r) :
    (processMsgList ns nd nt [(id, .ok e wf)] st).processed_emails
        = id :: st.processed_emails
    ∧ ∀ oc₂ rest,
        processMsgList ns nd nt ((id, oc₂) :: rest)
            (processMsgList ns nd nt [(id, .ok e wf)] st)
          = processMsgList ns nd nt rest (processMsgList ns nd nt [(id, .ok e wf)] st) := by
  have hseen : (processMsgList ns nd nt [(id, .ok e wf)] st).processed_emails
      = id :: st.processed_emails := by
    rw [processMsgList_cons_ok ns nd nt id e wf _ _ hid, processMsgList_nil]
    simp only [applyCandidate, hr]
    cases save_record_result st.store r wf <;> rfl
  refine ⟨hseen, ?_⟩
  intro oc₂ rest
  apply processMsgList_cons_seen
  rw [hseen]
  exact List.mem_cons_self id st.processed_emails

/-- Witness for C8: the id is marked seen even when the write fails. -/
theorem seen_set_always_updated_witness :
    (processMsgList zelleNameGroups "2024-01-15" "2024-01-15 10:00:00"
        [("1", .ok zelleEmail true)] ⟨[], [], 0⟩).processed_emails = ["1"] :=
  (seen_set_always_updated zelleNameGroups "2024-01-15" "2024-01-15 10:00:00" ⟨[], [], 0⟩
    "1" zelleEmail true zelleRecord (List.not_mem_nil "1") (by decide)).1

/-! ## C9: summary statistics -/

/-- C9: an empty store reports zero records and zero total (and no
extended keys); a store holding exactly one $50.00 row reports count 1,
total 50, mean = max = min = 50, one unique payer, and one record for its
provider; the two results are distinguishable. -/
theorem get_summary_stats_spec (row : StoredRow) (h : row.amount = 50) :
    get_summary_stats ([] : List StoredRow)
        = { total_records := 0, total_amount := 0, extended := none }
    ∧ (get_summary_stats [row]).total_records = 1
    ∧ (get_summary_stats [row]).total_amount = 50
    ∧ (∃ ext, (get_summary_stats [row]).extended = some ext
        ∧ ext.average_amount = 50 ∧ ext.max_amount = 50 ∧ ext.min_amount = 50
        ∧ ext.unique_clients = 1 ∧ ext.by_source row.source = 1)
    ∧ get_summary_stats [] ≠ get_summary_stats [row] := by
  have hsum : sumAmounts [row] = row.amount := by
    show qadd 0 row.amount = row.amount
    exact qadd_zero_left row.amount
  refine ⟨rfl, rfl, ?_, ⟨_, rfl, ?_, h, h, ?_, ?_⟩, ?_⟩
  · show sumAmounts [row] = 50
    rw [hsum, h]
  · show mkRat (sumAmounts [row]).num ((sumAmounts [row]).den * 1) = 50
    rw [hsum, h, Nat.mul_one, Rat.mkRat_self]
  · show ([row.client_name] : List String).dedup.length = 1
    simp
  · show (List.filter (fun r2 => r2.source == row.source) [row]).length = 1
    simp
  · intro heq
    have h0 := congrArg SummaryStats.total_records heq
    simp [get_summary_stats] at h0

/-- Witness for C9 with the $50.00 sample row. -/
theorem get_summary_stats_spec_witness :
    ∃ ext, (get_summary_stats [sampleRecordA.to_dict]).extended = some ext
      ∧ ext.average_amount = 50 ∧ ext.max_amount = 50 ∧ ext.min_amount = 50
      ∧ ext.unique_clients = 1 ∧ ext.by_source sampleRecordA.to_dict.source = 1 :=
  (get_summary_stats_spec sampleRecordA.to_dict (by decide)).2.2.2.1

/-! ## C10: the existence check fails open -/

/-- C10: a failed store read (or a lookup raising inside the check)
makes `record_exists` return `false` rather than raise, even for a
candidate that genuinely duplicates a stored row; the save path then
treats it as new and appends it (to the frame the failing load produced,
i.e. the substituted empty one). -/
theorem record_exists_fails_open (r : PaymentRecord) (rows : List StoredRow)
    (hdup : record_exists rows r = true) :
    record_exists_io (.ok rows) r = true
    ∧ record_exists_io .readFailure r = false
    ∧ record_exists_io .lookupFailure r = false
    ∧ save_record_io .readFailure r = [r.to_dict] :=
  ⟨hdup, rfl, rfl, rfl⟩

/-- Witness for C10: a stored duplicate is invisible under a failing
read, and the candidate goes to the append step. -/
theorem record_exists_fails_open_witness :
    record_exists_io .readFailure sampleRecordA = false
    ∧ save_record_io .readFailure sampleRecordA = [sampleRecordA.to_dict] :=
  ⟨(record_exists_fails_open sampleRecordA [sampleRecordA.to_dict] (by decide)).2.1,
   (record_exists_fails_open sampleRecordA [sampleRecordA.to_dict] (by decide)).2.2.2⟩

end IncomeTracker
